import Mathlib

/-!
Shallow embedding of the authentication middleware and ownership logic of
the open-notebook API (files api/auth.py, api/routers/auth.py,
api/routers/notebooks.py), together with theorems settling the frozen
claims about that code.

Python optional strings are modelled as `Option String`; header lookup via
`request.headers.get` yields `none` when the header is absent and
`some s` (possibly `some ""`) when present.  Python truthiness of an
optional string (`if x:`) is `truthy` below: `None` and the empty string
are falsy.
-/

/-- Python truthiness of an optional string: None and the empty string are
falsy, every other string is truthy. -/
def truthy : Option String → Bool
  | none => false
  | some s => s ≠ ""

/-- Python `x or d` for an optional string `x` and a string default `d`:
yields `d` when `x` is None or empty, else the string. -/
def pyOr (x : Option String) (d : String) : String :=
  match x with
  | none => d
  | some s => if s = "" then d else s

/-- Whether `needle` occurs as a contiguous substring of `haystack`;
models the Python `in` operator on strings. -/
def strContains (haystack needle : String) : Bool :=
  (List.range (haystack.toList.length + 1)).any
    (fun i => needle.toList.isPrefixOf (haystack.toList.drop i))

/-- Split a character list at its first space. -/
def splitCharsOnce (acc : List Char) : List Char → Option (List Char × List Char)
  | [] => none
  | c :: cs =>
    if c = ' ' then some (acc.reverse, cs) else splitCharsOnce (c :: acc) cs

/-- Python `s.split(" ", 1)` followed by unpacking into two variables:
`none` models the ValueError raised when the string holds no space,
otherwise the part before the first space and everything after it. -/
def splitOnce (s : String) : Option (String × String) :=
  match splitCharsOnce [] s.toList with
  | none => none
  | some (a, b) => some (String.mk a, String.mk b)

/-- Python `s.lower()` (ASCII lowering suffices for the scheme check). -/
def lowerStr (s : String) : String :=
  String.mk (s.toList.map Char.toLower)

/-- The user object returned by the identity provider inside
`auth_response.user` in SupabaseAuthMiddleware.dispatch: `id` is a plain
string, `email` and `role` are optional. -/
structure SupaUser where
  id : String
  email : Option String
  role : Option String
deriving DecidableEq, Repr

/-- The dict attached to `request.state.user` on successful verification
(auth.py lines 145-149): role defaults to "authenticated" via Python
`or` when the provider role is None or empty. -/
structure StateUser where
  id : String
  email : Option String
  role : String
deriving DecidableEq, Repr

/-- The `request.state.user` dict built at auth.py lines 145-149. -/
def mkStateUser (u : SupaUser) : StateUser :=
  ⟨u.id, u.email, pyOr u.role "authenticated"⟩

/-- Outcome of `self.supabase_client.auth.get_user(token)` as the dispatch
code distinguishes them: a response whose `user` field is present
(success), a response that is None or has no user (the 401 "Invalid
token" branch), or a raised exception (the fall-through branch). -/
inductive VerifyOutcome where
  | success (user : SupaUser)
  | invalid
  | failure
deriving DecidableEq, Repr

/-- Process-wide configuration of SupabaseAuthMiddleware: the excluded
path list, whether `self.supabase_client` was successfully created, and
the OPEN_NOTEBOOK_PASSWORD environment variable. -/
structure MwConfig where
  excludedPaths : List String
  supabaseClient : Bool
  password : Option String
deriving DecidableEq, Repr

/-- The request fields SupabaseAuthMiddleware.dispatch reads: URL path,
HTTP method, and the raw Authorization header (`none` when absent). -/
structure MwRequest where
  path : String
  method : String
  authHeader : Option String
deriving DecidableEq, Repr

/-- Terminal outcome of dispatch: forward to the handler (with the
optional `request.state.user` attached on the way), or a JSON 401
response with a detail string; `wwwAuth` records the
WWW-Authenticate Bearer response header. -/
inductive DispatchResult where
  | forward (user : Option StateUser)
  | reject (status : Nat) (detail : String) (wwwAuth : Bool)
deriving DecidableEq, Repr

/-- The default `excluded_paths` of both middlewares
(auth.py lines 84 and 192). -/
def defaultExcludedPaths : List String :=
  ["/", "/health", "/docs", "/openapi.json", "/redoc"]

/-- The fallback password block of SupabaseAuthMiddleware.dispatch
(auth.py lines 162-180): exact comparison against the configured
password, else 401; with no password configured, 401 "Authentication
required but not configured". -/
def sharedSecretStep (cfg : MwConfig) (token : String) : DispatchResult :=
  if truthy cfg.password then
    if token = cfg.password.getD "" then
      .forward none
    else
      .reject 401 "Invalid token or password" true
  else
    .reject 401 "Authentication required but not configured" true

/-- The Supabase block of SupabaseAuthMiddleware.dispatch (auth.py lines
136-161): with a client configured, a verified user forwards with the
identity attached, a response without a user is rejected 401 "Invalid
token", and an exception falls through to the password block. -/
def providerStep (cfg : MwConfig) (verify : String → VerifyOutcome)
    (token : String) : DispatchResult :=
  if cfg.supabaseClient then
    match verify token with
    | .success u => .forward (some (mkStateUser u))
    | .invalid => .reject 401 "Invalid token" true
    | .failure => sharedSecretStep cfg token
  else
    sharedSecretStep cfg token

/-- SupabaseAuthMiddleware.dispatch (auth.py lines 105-180).  `verify`
stands for the configured provider oracle. -/
def dispatch (cfg : MwConfig) (verify : String → VerifyOutcome)
    (req : MwRequest) : DispatchResult :=
  if req.path ∈ cfg.excludedPaths then
    .forward none
  else if req.method = "OPTIONS" then
    .forward none
  else if ¬ truthy req.authHeader then
    .reject 401 "Missing authorization header" true
  else
    match splitOnce (req.authHeader.getD "") with
    | none => .reject 401 "Invalid authorization header format" true
    | some (scheme, token) =>
      if lowerStr scheme ≠ "bearer" then
        .reject 401 "Invalid authorization header format" true
      else
        providerStep cfg verify token

/-- OwnershipContext dataclass (auth.py lines 20-25). -/
structure OwnershipContext where
  user_id : Option String
  team_id : Option String
  created_by : Option String
deriving DecidableEq, Repr

/-- get_ownership_context (auth.py lines 28-59): `stateUser` is
`request.state.user` (absent when no identity was attached) and
`teamHeader` the raw X-Team-ID header. -/
def get_ownership_context (stateUser : Option StateUser)
    (teamHeader : Option String) : OwnershipContext :=
  let user_id := stateUser.map StateUser.id
  if truthy teamHeader then
    ⟨none, teamHeader, user_id⟩
  else
    ⟨user_id, none, user_id⟩

/-- get_ownership_filter (auth.py lines 62-73): the raw
(user_id, team_id) pair, both components independent. -/
def get_ownership_filter (stateUser : Option StateUser)
    (teamHeader : Option String) : Option String × Option String :=
  (stateUser.map StateUser.id, teamHeader)

/-- The ownership fields of a stored notebook record, as read back by
`nb.get("user_id")` and `nb.get("team_id")` in get_notebook. -/
structure NotebookRecord where
  user_id : Option String
  team_id : Option String
deriving DecidableEq, Repr

/-- The `has_access` expression of get_notebook
(notebooks.py lines 145-149), with Python truthiness of the filter
components made explicit. -/
def has_access (user_id team_id : Option String) (nb : NotebookRecord) : Bool :=
  (truthy user_id && nb.user_id == user_id) ||
  (truthy team_id && nb.team_id == team_id) ||
  (nb.user_id == none && nb.team_id == none)

/-- Status code produced by get_notebook after the fetch
(notebooks.py lines 137-165): 404 when the query returns nothing,
403 "Access denied" when has_access is false, 200 otherwise. -/
def get_notebook_decision (user_id team_id : Option String)
    (fetched : Option NotebookRecord) : Nat :=
  match fetched with
  | none => 404
  | some nb => if has_access user_id team_id nb then 200 else 403

/-- The access predicate as the specification words it (claim C2): allow
iff the context user_id is SET and equals the resource user_id, or the
context team_id is SET and equals the resource team_id, or both resource
owner fields are unset.  Kept separate from `has_access`, which is
translated from the source, so the two can be compared. -/
def canReadSpec (user_id team_id : Option String) (nb : NotebookRecord) : Bool :=
  (user_id.isSome && nb.user_id == user_id) ||
  (team_id.isSome && nb.team_id == team_id) ||
  (nb.user_id == none && nb.team_id == none)

/-- The environment variables read by the auth-status endpoint and the
middleware constructor. -/
structure EnvConfig where
  supabase_url : Option String
  supabase_anon_key : Option String
  open_notebook_password : Option String
deriving DecidableEq, Repr

/-- Response body of GET /auth/status. -/
structure AuthStatus where
  auth_enabled : Bool
  auth_type : String
  message : String
deriving DecidableEq, Repr

/-- get_auth_status (routers/auth.py lines 33-49). -/
def get_auth_status (env : EnvConfig) : AuthStatus :=
  let supabase_configured :=
    truthy env.supabase_url && truthy env.supabase_anon_key
  let password_configured := truthy env.open_notebook_password
  let auth_enabled := supabase_configured || password_configured
  ⟨auth_enabled,
   if supabase_configured then "supabase"
   else if password_configured then "password" else "none",
   if auth_enabled then "Authentication is required"
   else "Authentication is disabled"⟩

/-- Path of the auth-status endpoint: router prefix "/auth"
(routers/auth.py line 19) plus the route path "/status" (line 33). -/
def authStatusPath : String := "/auth/status"

/-- Session object in a provider sign-in response. -/
structure Session where
  access_token : String
deriving DecidableEq, Repr

/-- Result of running `supabase.auth.sign_in_with_password(...)` inside
the login try-block: a response carrying optional user and session
fields, or a raised exception with its message (this also covers a
failure of `create_client`). -/
inductive SignInResult where
  | response (user : Option SupaUser) (session : Option Session)
  | raises (msg : String)
deriving DecidableEq, Repr

/-- Configuration the login endpoint reads before contacting the
provider. -/
structure LoginEnv where
  supabase_available : Bool
  supabase_url : Option String
  supabase_anon_key : Option String
deriving DecidableEq, Repr

/-- Outcome of POST /auth/login: a LoginResponse with token_type
"bearer" and the user fields, or an HTTPException with status and
detail. -/
inductive LoginOutcome where
  | success (access_token : String) (token_type : String) (uid : String)
      (email : Option String) (role : String)
  | error (status : Nat) (detail : String)
deriving DecidableEq, Repr

/-- Message of an HTTPException as seen by `str(e)` in the except block:
starlette HTTPException renders as "status: detail". -/
def httpExceptionMessage (status : Nat) (detail : String) : String :=
  toString status ++ ": " ++ detail

/-- The except-branch of login (routers/auth.py lines 99-116): classify
the exception message by substring matching. -/
def handleLoginError (msg : String) : LoginOutcome :=
  if strContains msg "Invalid login credentials" ||
     strContains msg "Invalid email or password" then
    .error 401 "Invalid email or password"
  else if strContains msg "Email not confirmed" then
    .error 403 "Please confirm your email before logging in"
  else
    .error 500 ("Authentication failed: " ++ msg)

/-- Python getattr(user, "role", "authenticated") in the login success
path: `none` models a missing role attribute. -/
def getattrRole (role : Option String) : String :=
  role.getD "authenticated"

/-- The login endpoint (routers/auth.py lines 52-116).  The inner 401
raised when the response lacks a user or a session is itself caught by
the except block, whose substring match on the rendered message
re-raises it as 401 "Invalid email or password". -/
def login (env : LoginEnv) (signIn : SignInResult) : LoginOutcome :=
  if ¬ env.supabase_available then
    .error 503
      "Supabase authentication is not available. Please install supabase package."
  else if ¬ (truthy env.supabase_url && truthy env.supabase_anon_key) then
    .error 503
      "Supabase is not configured. Please set SUPABASE_URL and SUPABASE_ANON_KEY environment variables."
  else
    match signIn with
    | .raises msg => handleLoginError msg
    | .response user session =>
      match user, session with
      | some u, some s =>
        .success s.access_token "bearer" u.id u.email (getattrRole u.role)
      | some _, none =>
        handleLoginError (httpExceptionMessage 401 "Invalid email or password")
      | none, _ =>
        handleLoginError (httpExceptionMessage 401 "Invalid email or password")

/-- The create-notebook request body field relevant to ownership. -/
structure NotebookCreateBody where
  team_id : Option String
deriving DecidableEq, Repr

/-- Ownership fields stored by create_notebook (notebooks.py lines
83-96): a truthy body team_id wins over the context, and a truthy final
team_id forces the stored user_id to None. -/
def create_ownership (ctx : OwnershipContext) (body : NotebookCreateBody) :
    Option String × Option String :=
  let team_id := if truthy body.team_id then body.team_id else ctx.team_id
  let user_id := if truthy team_id then none else ctx.user_id
  (user_id, team_id)

/-! Helper lemmas shared by the claim theorems. -/

theorem truthy_some_iff (s : String) : truthy (some s) = true ↔ s ≠ "" := by
  simp [truthy]

theorem truthy_none : truthy none = false := rfl

/-- C9: for every request whose path is in the exempt set, and for every
request whose method is OPTIONS, the middleware forwards the request to
the handler without attaching an identity, regardless of the
Authorization header. -/
theorem C9_exempt_and_preflight (cfg : MwConfig) (verify : String → VerifyOutcome)
    (req : MwRequest)
    (h : req.path ∈ cfg.excludedPaths ∨ req.method = "OPTIONS") :
    dispatch cfg verify req = .forward none := by
  rcases h with h | h
  · simp [dispatch, h]
  · by_cases hp : req.path ∈ cfg.excludedPaths <;> simp [dispatch, hp, h]

/-- Witness for C9: an OPTIONS request with a malformed Authorization
header is still forwarded with no identity. -/
theorem C9_witness :
    dispatch ⟨defaultExcludedPaths, true, some "pw"⟩ (fun _ => .invalid)
      ⟨"/notebooks", "OPTIONS", some "garbage"⟩ = .forward none :=
  C9_exempt_and_preflight _ _ _ (Or.inr rfl)

/-- C4: get_ownership_context yields the team context (user_id None,
team_id the header, created_by the identity id) exactly when the
X-Team-ID header is present and non-empty, the personal context
otherwise, and its user_id and team_id are never both set. -/
theorem C4_resolve_context (stateUser : Option StateUser) (teamHeader : Option String) :
    (∀ t, teamHeader = some t → t ≠ "" →
      get_ownership_context stateUser teamHeader =
        ⟨none, some t, stateUser.map StateUser.id⟩) ∧
    (truthy teamHeader = false →
      get_ownership_context stateUser teamHeader =
        ⟨stateUser.map StateUser.id, none, stateUser.map StateUser.id⟩) ∧
    ¬((get_ownership_context stateUser teamHeader).user_id.isSome ∧
      (get_ownership_context stateUser teamHeader).team_id.isSome) := by
  refine ⟨?_, ?_, ?_⟩
  · intro t ht hne
    subst ht
    simp [get_ownership_context, truthy, hne]
  · intro hf
    simp [get_ownership_context, hf]
  · by_cases hf : truthy teamHeader = true
    · simp [get_ownership_context, hf]
    · simp at hf
      simp [get_ownership_context, hf]

/-- Witness for C4: identity u1 with header teamA yields the team
context with created_by u1. -/
theorem C4_witness :
    get_ownership_context (some ⟨"u1", none, "authenticated"⟩) (some "teamA") =
      ⟨none, some "teamA", some "u1"⟩ :=
  (C4_resolve_context (some ⟨"u1", none, "authenticated"⟩) (some "teamA")).1
    "teamA" rfl (by decide)

/-- C5: get_ownership_filter returns the raw pair of identity id and
header value, both populated independently: the presence of a team
header does not null out the user_id component. -/
theorem C5_resolve_filter (stateUser : Option StateUser) (teamHeader : Option String) :
    get_ownership_filter stateUser teamHeader =
      (stateUser.map StateUser.id, teamHeader) ∧
    (get_ownership_filter stateUser teamHeader).1 =
      (get_ownership_filter stateUser none).1 :=
  ⟨rfl, rfl⟩

/-- Counterexample to C1: with a configured provider whose verification
outcome is Invalid (a response without a user), dispatch returns 401
"Invalid token" directly from the provider step; it does not fall
through to the shared-secret step, whose result differs. -/
theorem C1_counterexample :
    dispatch ⟨defaultExcludedPaths, true, some "pw"⟩ (fun _ => .invalid)
      ⟨"/notebooks", "GET", some "Bearer tok"⟩ =
      .reject 401 "Invalid token" true ∧
    dispatch ⟨defaultExcludedPaths, true, some "pw"⟩ (fun _ => .invalid)
      ⟨"/notebooks", "GET", some "Bearer tok"⟩ ≠
      sharedSecretStep ⟨defaultExcludedPaths, true, some "pw"⟩ "tok" := by
  decide

/-- C1 as amended: for a well-formed Bearer request with a configured
provider, only a ProviderUnavailable outcome (an exception) falls
through to the shared-secret step; an Invalid outcome (a response with
no user) is rejected 401 "Invalid token" directly. -/
theorem C1_provider_step (cfg : MwConfig) (verify : String → VerifyOutcome)
    (req : MwRequest) (hdr scheme token : String)
    (hpath : req.path ∉ cfg.excludedPaths)
    (hmethod : req.method ≠ "OPTIONS")
    (hheader : req.authHeader = some hdr)
    (hne : hdr ≠ "")
    (hsplit : splitOnce hdr = some (scheme, token))
    (hscheme : lowerStr scheme = "bearer")
    (hclient : cfg.supabaseClient = true) :
    (verify token = .failure →
      dispatch cfg verify req = sharedSecretStep cfg token) ∧
    (verify token = .invalid →
      dispatch cfg verify req = .reject 401 "Invalid token" true) := by
  constructor <;> intro hv <;>
    simp [dispatch, hheader, hpath, hmethod, truthy, hne, hsplit, hscheme,
      providerStep, hclient, hv]

/-- Witness for C1: a concrete unreachable-provider request lands in the
shared-secret step. -/
theorem C1_witness :
    dispatch ⟨defaultExcludedPaths, true, some "pw"⟩ (fun _ => .failure)
      ⟨"/notebooks", "GET", some "Bearer tok"⟩ =
      sharedSecretStep ⟨defaultExcludedPaths, true, some "pw"⟩ "tok" :=
  (C1_provider_step ⟨defaultExcludedPaths, true, some "pw"⟩ (fun _ => .failure)
    ⟨"/notebooks", "GET", some "Bearer tok"⟩ "Bearer tok" "Bearer" "tok"
    (by decide) (by decide) rfl (by decide) (by decide) (by decide) rfl).1 rfl

/-- Counterexample to C2: the claim allows a context whose user_id is
set (here to the empty string) and equals the resource user_id, but the
code, which tests Python truthiness of the context component, denies
with 403. -/
theorem C2_counterexample :
    canReadSpec (some "") none ⟨some "", none⟩ = true ∧
    has_access (some "") none ⟨some "", none⟩ = false ∧
    get_notebook_decision (some "") none (some ⟨some "", none⟩) = 403 := by
  decide

/-- The source access expression agrees with the claim once "set" is
strengthened to "set and non-empty" on the context components. -/
theorem truthy_eq_true_iff (o : Option String) :
    truthy o = true ↔ ∃ s, o = some s ∧ s ≠ "" := by
  cases o <;> simp [truthy]

theorem has_access_iff (user_id team_id : Option String) (nb : NotebookRecord) :
    has_access user_id team_id nb = true ↔
      ((∃ u, user_id = some u ∧ u ≠ "" ∧ nb.user_id = some u) ∨
       (∃ t, team_id = some t ∧ t ≠ "" ∧ nb.team_id = some t) ∨
       (nb.user_id = none ∧ nb.team_id = none)) := by
  unfold has_access
  simp only [Bool.or_eq_true, Bool.and_eq_true, beq_iff_eq, truthy_eq_true_iff]
  constructor
  · rintro ((⟨⟨u, rfl, hune⟩, he⟩ | ⟨⟨t, rfl, htne⟩, he⟩) | ⟨h1, h2⟩)
    · exact Or.inl ⟨u, rfl, hune, he⟩
    · exact Or.inr (Or.inl ⟨t, rfl, htne, he⟩)
    · exact Or.inr (Or.inr ⟨h1, h2⟩)
  · rintro (⟨u, rfl, hune, he⟩ | ⟨t, rfl, htne, he⟩ | ⟨h1, h2⟩)
    · exact Or.inl (Or.inl ⟨⟨u, rfl, hune⟩, he⟩)
    · exact Or.inl (Or.inr ⟨⟨t, rfl, htne⟩, he⟩)
    · exact Or.inr ⟨h1, h2⟩

/-- C2 as amended: the single-resource decision after a successful fetch
returns 200 iff the context user_id is set, NON-EMPTY and equals the
resource user_id, or the context team_id is set, NON-EMPTY and equals
the resource team_id, or both resource owner fields are unset; in every
other case it returns 403. -/
theorem C2_access_decision (user_id team_id : Option String) (nb : NotebookRecord) :
    (get_notebook_decision user_id team_id (some nb) = 200 ↔
      ((∃ u, user_id = some u ∧ u ≠ "" ∧ nb.user_id = some u) ∨
       (∃ t, team_id = some t ∧ t ≠ "" ∧ nb.team_id = some t) ∨
       (nb.user_id = none ∧ nb.team_id = none))) ∧
    (get_notebook_decision user_id team_id (some nb) = 200 ∨
     get_notebook_decision user_id team_id (some nb) = 403) := by
  rw [← has_access_iff]
  unfold get_notebook_decision
  by_cases hA : has_access user_id team_id nb = true <;> simp [hA]

/-- C3: for every request that reaches the shared-secret step (provider
client not configured, or provider verification raised), a configured
non-empty secret forwards exactly the matching token with no identity
attached and rejects a mismatch 401 "Invalid token or password", and
with no secret configured the response is 401 "Authentication required
but not configured". -/
theorem C3_shared_secret (cfg : MwConfig) (verify : String → VerifyOutcome)
    (req : MwRequest) (hdr scheme token : String)
    (hpath : req.path ∉ cfg.excludedPaths)
    (hmethod : req.method ≠ "OPTIONS")
    (hheader : req.authHeader = some hdr)
    (hne : hdr ≠ "")
    (hsplit : splitOnce hdr = some (scheme, token))
    (hscheme : lowerStr scheme = "bearer")
    (hreach : cfg.supabaseClient = false ∨ verify token = .failure) :
    dispatch cfg verify req = sharedSecretStep cfg token ∧
    (∀ pw, cfg.password = some pw → pw ≠ "" →
      (token = pw → dispatch cfg verify req = .forward none) ∧
      (token ≠ pw →
        dispatch cfg verify req = .reject 401 "Invalid token or password" true)) ∧
    (truthy cfg.password = false →
      dispatch cfg verify req =
        .reject 401 "Authentication required but not configured" true) := by
  have hstep : dispatch cfg verify req = sharedSecretStep cfg token := by
    rcases hreach with hc | hv
    · simp [dispatch, hheader, hpath, hmethod, truthy, hne, hsplit, hscheme,
        providerStep, hc]
    · by_cases hc : cfg.supabaseClient = true <;>
        simp [dispatch, hheader, hpath, hmethod, truthy, hne, hsplit, hscheme,
          providerStep, hc, hv]
  refine ⟨hstep, ?_, ?_⟩
  · intro pw hpw hpwne
    constructor <;> intro htok <;>
      simp [hstep, sharedSecretStep, hpw, truthy, hpwne, htok]
  · intro hnopw
    simp [hstep, sharedSecretStep, hnopw]

/-- Witness for C3: with the provider raising and the secret equal to
the token, the request is forwarded anonymously. -/
theorem C3_witness :
    dispatch ⟨defaultExcludedPaths, true, some "pw"⟩ (fun _ => .failure)
      ⟨"/notebooks", "GET", some "Bearer pw"⟩ = .forward none :=
  ((C3_shared_secret ⟨defaultExcludedPaths, true, some "pw"⟩ (fun _ => .failure)
    ⟨"/notebooks", "GET", some "Bearer pw"⟩ "Bearer pw" "Bearer" "pw"
    (by decide) (by decide) rfl (by decide) (by decide) (by decide)
    (Or.inr rfl)).2.1 "pw" rfl (by decide)).1 rfl

/-- Counterexample to C8: an Authorization header that is present but
empty holds no space, so the claim assigns it the detail "Invalid
authorization header format", yet the code, which tests truthiness of
the header, answers "Missing authorization header". -/
theorem C8_counterexample :
    (some "" : Option String).isSome = true ∧
    (' ' ∉ ("" : String).toList) ∧
    dispatch ⟨defaultExcludedPaths, true, some "pw"⟩ (fun _ => .failure)
      ⟨"/notebooks", "GET", some ""⟩ =
      .reject 401 "Missing authorization header" true := by
  decide

/-- C8 as amended: for a non-exempt, non-preflight request, an absent OR
EMPTY Authorization header yields 401 "Missing authorization header",
and a present non-empty header that holds no space or whose scheme does
not lower to "bearer" yields 401 "Invalid authorization header format";
both responses carry WWW-Authenticate Bearer. -/
theorem C8_header_errors (cfg : MwConfig) (verify : String → VerifyOutcome)
    (req : MwRequest)
    (hpath : req.path ∉ cfg.excludedPaths)
    (hmethod : req.method ≠ "OPTIONS") :
    (truthy req.authHeader = false →
      dispatch cfg verify req = .reject 401 "Missing authorization header" true) ∧
    (∀ hdr, req.authHeader = some hdr → hdr ≠ "" →
      (∀ scheme token, splitOnce hdr = some (scheme, token) →
        lowerStr scheme ≠ "bearer") →
      dispatch cfg verify req =
        .reject 401 "Invalid authorization header format" true) := by
  constructor
  · intro hf
    simp [dispatch, hpath, hmethod, hf]
  · intro hdr hheader hne hbad
    rcases hcase : splitOnce hdr with _ | ⟨scheme, token⟩
    · simp [dispatch, hpath, hmethod, hheader, truthy, hne, hcase]
    · have := hbad scheme token hcase
      simp [dispatch, hpath, hmethod, hheader, truthy, hne, hcase, this]

/-- Witness for C8: a request with no Authorization header is rejected
with the missing-header detail, and one with scheme Basic with the
malformed-header detail. -/
theorem C8_witness :
    dispatch ⟨defaultExcludedPaths, true, some "pw"⟩ (fun _ => .failure)
      ⟨"/notebooks", "GET", none⟩ =
      .reject 401 "Missing authorization header" true ∧
    dispatch ⟨defaultExcludedPaths, true, some "pw"⟩ (fun _ => .failure)
      ⟨"/notebooks", "GET", some "Basic abc"⟩ =
      .reject 401 "Invalid authorization header format" true :=
  ⟨(C8_header_errors ⟨defaultExcludedPaths, true, some "pw"⟩ (fun _ => .failure)
      ⟨"/notebooks", "GET", none⟩ (by decide) (by decide)).1 rfl,
   (C8_header_errors ⟨defaultExcludedPaths, true, some "pw"⟩ (fun _ => .failure)
      ⟨"/notebooks", "GET", some "Basic abc"⟩ (by decide) (by decide)).2
     "Basic abc" rfl (by decide)
     (by intro scheme token hsp; rw [show splitOnce "Basic abc" = some ("Basic", "abc") from by decide] at hsp; cases hsp; decide)⟩

/-- Counterexample to C6: with the provider configured, the endpoint
reports auth_type "supabase", which is not among the strings the claim
permits, and the endpoint path /auth/status is not in the default
exempt set of the middleware. -/
theorem C6_counterexample :
    (get_auth_status ⟨some "https://supabase.local", some "anon", none⟩).auth_type =
      "supabase" ∧
    "supabase" ∉ (["provider", "password", "none"] : List String) ∧
    authStatusPath ∉ defaultExcludedPaths := by
  decide

/-- C6 as amended: the endpoint always returns auth_enabled true iff the
provider env vars or the secret are configured (non-empty), auth_type
"supabase" when the provider is configured, "password" when only the
secret is, "none" otherwise, and the message reflects auth_enabled; the
endpoint path /auth/status is NOT in the default exempt set. -/
theorem C6_auth_status (env : EnvConfig) :
    ((get_auth_status env).auth_enabled =
      ((truthy env.supabase_url && truthy env.supabase_anon_key) ||
        truthy env.open_notebook_password)) ∧
    ((truthy env.supabase_url && truthy env.supabase_anon_key) = true →
      (get_auth_status env).auth_type = "supabase") ∧
    ((truthy env.supabase_url && truthy env.supabase_anon_key) = false →
      truthy env.open_notebook_password = true →
      (get_auth_status env).auth_type = "password") ∧
    ((truthy env.supabase_url && truthy env.supabase_anon_key) = false →
      truthy env.open_notebook_password = false →
      (get_auth_status env).auth_type = "none") ∧
    ((get_auth_status env).message =
      if (get_auth_status env).auth_enabled then "Authentication is required"
      else "Authentication is disabled") ∧
    authStatusPath ∉ defaultExcludedPaths := by
  refine ⟨?_, ?_, ?_, ?_, ?_, by decide⟩ <;>
    by_cases h1 : (truthy env.supabase_url && truthy env.supabase_anon_key) = true <;>
    by_cases h2 : truthy env.open_notebook_password = true <;>
    simp_all [get_auth_status]

/-- Witness for C6: with only the secret configured, auth_type is
"password". -/
theorem C6_witness :
    (get_auth_status ⟨none, none, some "pw"⟩).auth_type = "password" :=
  (C6_auth_status ⟨none, none, some "pw"⟩).2.2.1 (by decide) (by decide)

/-- Counterexample to C7: a transport failure at request time (provider
unreachable, message matching none of the credential patterns) yields
500 with the message attached, not the 503 the claim assigns to an
unreachable provider. -/
theorem C7_counterexample :
    login ⟨true, some "https://supabase.local", some "anon"⟩
      (.raises "Connection refused") =
      .error 500 "Authentication failed: Connection refused" := by
  decide

theorem handleLoginError_inner401 :
    handleLoginError (httpExceptionMessage 401 "Invalid email or password") =
      .error 401 "Invalid email or password" := by
  decide

/-- C7 as amended: the login endpoint returns 503 exactly when the
provider library is unavailable or its env vars are unconfigured;
with the provider configured, an exception whose message holds a
credential-error pattern maps to 401, an unconfirmed-account message to
403, and any other exception (including request-time transport
failures) to 500 with the message attached; a response missing its user
or session yields 401, and a full response yields the session
access_token with token_type "bearer" and the user id/email/role. -/
theorem C7_login_mapping (env : LoginEnv) :
    (env.supabase_available = false →
      ∀ signIn, login env signIn =
        .error 503
          "Supabase authentication is not available. Please install supabase package.") ∧
    (env.supabase_available = true →
      (truthy env.supabase_url && truthy env.supabase_anon_key) = false →
      ∀ signIn, login env signIn =
        .error 503
          "Supabase is not configured. Please set SUPABASE_URL and SUPABASE_ANON_KEY environment variables.") ∧
    (env.supabase_available = true →
      (truthy env.supabase_url && truthy env.supabase_anon_key) = true →
      (∀ msg, strContains msg "Invalid login credentials" = true ∨
          strContains msg "Invalid email or password" = true →
        login env (.raises msg) = .error 401 "Invalid email or password") ∧
      (∀ msg, strContains msg "Invalid login credentials" = false →
          strContains msg "Invalid email or password" = false →
          strContains msg "Email not confirmed" = true →
        login env (.raises msg) =
          .error 403 "Please confirm your email before logging in") ∧
      (∀ msg, strContains msg "Invalid login credentials" = false →
          strContains msg "Invalid email or password" = false →
          strContains msg "Email not confirmed" = false →
        login env (.raises msg) = .error 500 ("Authentication failed: " ++ msg)) ∧
      (∀ user session, user = none ∨ session = none →
        login env (.response user session) =
          .error 401 "Invalid email or password") ∧
      (∀ u s, login env (.response (some u) (some s)) =
        .success s.access_token "bearer" u.id u.email (getattrRole u.role))) := by
  refine ⟨?_, ?_, ?_⟩
  · intro hf signIn
    simp [login, hf]
  · intro ht hf signIn
    simp [login, ht, hf]
  · intro ht hc
    refine ⟨?_, ?_, ?_, ?_, ?_⟩
    · intro msg hOr
      rcases hOr with h | h <;> simp [login, ht, hc, handleLoginError, h]
    · intro msg h1 h2 h3
      simp [login, ht, hc, handleLoginError, h1, h2, h3]
    · intro msg h1 h2 h3
      simp [login, ht, hc, handleLoginError, h1, h2, h3]
    · intro user session hOr
      cases user <;> cases session <;>
        simp [login, ht, hc, handleLoginError_inner401] <;>
        rcases hOr with h | h <;> simp_all
    · intro u s
      simp [login, ht, hc]

/-- Witness for C7: a full provider response yields the session token
with token_type bearer and the user fields. -/
theorem C7_witness :
    login ⟨true, some "https://supabase.local", some "anon"⟩
      (.response (some ⟨"u1", some "u1@example.com", some "authenticated"⟩)
        (some ⟨"tok123"⟩)) =
      .success "tok123" "bearer" "u1" (some "u1@example.com") "authenticated" :=
  ((C7_login_mapping ⟨true, some "https://supabase.local", some "anon"⟩).2.2
    rfl (by decide)).2.2.2.2
    ⟨"u1", some "u1@example.com", some "authenticated"⟩ ⟨"tok123"⟩

/-- C10: a notebook created through create_notebook from a context built
by get_ownership_context never stores user_id and team_id both set: a
non-empty body team_id forces the stored pair to (None, body team),
and otherwise the stored team_id is the context team_id (exclusive with
the context user_id). -/
theorem C10_create_ownership (stateUser : Option StateUser)
    (teamHeader : Option String) (body : NotebookCreateBody) :
    ¬((create_ownership (get_ownership_context stateUser teamHeader) body).1.isSome ∧
      (create_ownership (get_ownership_context stateUser teamHeader) body).2.isSome) ∧
    (∀ t, body.team_id = some t → t ≠ "" →
      create_ownership (get_ownership_context stateUser teamHeader) body =
        (none, some t)) ∧
    (truthy body.team_id = false →
      (create_ownership (get_ownership_context stateUser teamHeader) body).2 =
        (get_ownership_context stateUser teamHeader).team_id) := by
  refine ⟨?_, ?_, ?_⟩
  · by_cases hb : truthy body.team_id = true
    · simp [create_ownership, hb]
    · simp at hb
      by_cases hh : truthy teamHeader = true
      · simp [create_ownership, get_ownership_context, hb, hh]
      · simp at hh
        simp [create_ownership, get_ownership_context, hb, hh, truthy_none]
  · intro t hbt hne
    simp [create_ownership, hbt, truthy, hne]
  · intro hb
    simp [create_ownership, hb]

/-- Witness for C10: a personal context plus a body team id stores team
ownership with user_id None. -/
theorem C10_witness :
    create_ownership (get_ownership_context (some ⟨"u1", none, "authenticated"⟩) none)
      ⟨some "teamB"⟩ = (none, some "teamB") :=
  (C10_create_ownership (some ⟨"u1", none, "authenticated"⟩) none ⟨some "teamB"⟩).2.1
    "teamB" rfl (by decide)
